import Mathlib

/-!
Verification of the persistent TTS engine supervisor
(`src/internal/tts/python/outetts_engine.py`).

The Python module is embedded shallowly: numeric generation parameters are
rationals (the source's float literals are exact decimals, and the code only
stores and compares them, never does float arithmetic on them); device-memory
byte counts are integers; side effects of a `synthesize` call (memory check,
backend generate, save, cleanup, lock operations) are recorded as an explicit
event trace; fallible collaborators (CUDA queries, the backend `generate`,
`output.save`) are modelled by environment flags saying whether the call
raises.
-/

namespace TTS

/- Constants from the top of outetts_engine.py. -/

def DEFAULT_DAC_DECODING_CHUNK : Nat := 2048

def DEFAULT_MAX_LENGTH : Nat := 8192

def DEFAULT_DAC_DECODING_CHUNK_SMALL : Nat := 1536

def DEFAULT_MAX_LENGTH_LARGE : Nat := 6144

def DEFAULT_DAC_DECODING_CHUNK_TINY : Nat := 1024

def DEFAULT_MAX_LENGTH_HUGE : Nat := 4096

/-- `MIN_GPU_MEMORY_GB = 1.0` (exact). -/
def MIN_GPU_MEMORY_GB : Int := 1

/-- The byte threshold `MIN_GPU_MEMORY_GB * 1024 * 1024 * 1024` used in
`_check_memory_usage`. -/
def MIN_GPU_MEMORY_BYTES : Int := MIN_GPU_MEMORY_GB * 1024 * 1024 * 1024

/-- `outetts.GenerationType` values used by the engine. -/
inductive GenerationType where
  | regular
  | chunked
  deriving DecidableEq

/-- `outetts.SamplerConfig` as constructed in `synthesize` (lines 312-322). -/
structure SamplerConfig where
  temperature : Rat
  repetition_penalty : Rat
  repetition_range : Nat
  top_k : Nat
  top_p : Rat
  min_p : Rat
  mirostat : Bool
  mirostat_tau : Rat
  mirostat_eta : Rat
  deriving DecidableEq

/-- `outetts.GenerationConfig` as constructed in `synthesize` (lines 326-334).
The speaker is a reference by name; `none` models Python `None`. -/
structure GenerationConfig where
  text : String
  speaker : Option String
  generation_type : GenerationType
  max_batch_size : Nat
  dac_decoding_chunk : Nat
  max_length : Nat
  sampler_config : SamplerConfig
  deriving DecidableEq

/-- The dictionary returned by `_get_quality_settings`. -/
structure QualitySettings where
  generation_type : GenerationType
  max_batch_size : Nat
  dac_decoding_chunk : Nat
  max_length : Nat
  temperature : Rat
  repetition_penalty : Rat
  deriving DecidableEq

/-- `SynthesisJob` dataclass (lines 103-112), with the dataclass defaults. -/
structure SynthesisJob where
  id : String
  text : String
  output_path : String
  quality : String := "high"
  temperature : Rat := mkRat 4 10
  speaker : String := "en-female-1-neutral"
  deriving DecidableEq

/-- `SynthesisResult` dataclass (lines 115-124), with the dataclass defaults. -/
structure SynthesisResult where
  job_id : String
  success : Bool
  error : Option String := none
  duration : Rat := 0
  audio_path : String := ""
  audio_size : Nat := 0
  deriving DecidableEq

/-- The observable CUDA state consulted by `_check_memory_usage` and
`get_model_info`. `query_fails` models the torch calls raising. -/
structure GpuStatus where
  cuda_available : Bool
  query_fails : Bool
  allocated : Int
  reserved : Int
  total : Int
  device_count : Nat
  gpu_error_msg : String
  deriving DecidableEq

/-- Environment of one `synthesize` call: the CUDA state plus whether the
opaque backend `generate` call and the `output.save` write succeed. -/
structure SynthEnv where
  gpu : GpuStatus
  generate_ok : Bool
  save_ok : Bool
  deriving DecidableEq

/-- The `OuteTTSEngine` instance state read by `synthesize` and
`get_model_info`. -/
structure OuteTTSEngine where
  model_path : String
  is_loaded : Bool
  default_speaker : Option String
  deriving DecidableEq

/-- Observable actions of the engine, recorded in order of occurrence.
`lockAcquire`/`lockRelease` are operations on the engine's `self.mu` lock. -/
inductive Event where
  | lockAcquire
  | lockRelease
  | loadInterface
  | loadSpeaker
  | memCheck
  | generate (cfg : GenerationConfig)
  | save (path : String)
  | cleanup
  deriving DecidableEq

/-- `OuteTTSEngine._check_memory_usage` (lines 232-256): when CUDA is
available and the query succeeds, reports `False` exactly when
`total - reserved` is below the 1 GB threshold; a failed query and the
no-CUDA case both report `True`. -/
def check_memory_usage (g : GpuStatus) : Bool :=
  if g.cuda_available then
    if g.query_fails then true
    else if g.total - g.reserved < MIN_GPU_MEMORY_BYTES then false
    else true
  else true

/-- `OuteTTSEngine._get_quality_settings` (lines 202-230): `fast` and
`balanced` have dedicated bundles; everything else takes the `high` branch. -/
def get_quality_settings (quality : String) : QualitySettings :=
  if quality = "fast" then
    { generation_type := GenerationType.regular
      max_batch_size := 16
      dac_decoding_chunk := DEFAULT_DAC_DECODING_CHUNK
      max_length := DEFAULT_MAX_LENGTH
      temperature := mkRat 6 10
      repetition_penalty := mkRat 105 100 }
  else if quality = "balanced" then
    { generation_type := GenerationType.chunked
      max_batch_size := 12
      dac_decoding_chunk := DEFAULT_DAC_DECODING_CHUNK_SMALL
      max_length := DEFAULT_MAX_LENGTH_LARGE
      temperature := mkRat 5 10
      repetition_penalty := mkRat 108 100 }
  else
    { generation_type := GenerationType.chunked
      max_batch_size := 8
      dac_decoding_chunk := DEFAULT_DAC_DECODING_CHUNK_TINY
      max_length := DEFAULT_MAX_LENGTH_HUGE
      temperature := mkRat 4 10
      repetition_penalty := mkRat 11 10 }

/-- Python `str.strip()` with no argument: remove leading and trailing
whitespace.  Written structurally over the character list so that it
evaluates by kernel reduction (ASCII whitespace, which covers the protocol's
JSON string payloads). -/
def pyStrip (s : String) : String :=
  String.mk
    (((s.data.dropWhile Char.isWhitespace).reverse.dropWhile
        Char.isWhitespace).reverse)

/-- The sampler and generation configs built inside `synthesize`
(lines 311-334): the sampler temperature is the `temperature` argument (line
313, the per-job value; the preset bundle's own `temperature` entry is never
read), every other sampler field is the fixed literal from lines 314-321 or
the preset's `repetition_penalty`, and the speaker is `self.default_speaker`
(line 328). -/
def buildGenerationConfig (eng : OuteTTSEngine) (text quality : String)
    (temperature : Rat) (use_mirostat : Bool) : GenerationConfig :=
  let quality_settings := get_quality_settings quality
  let sampler_config : SamplerConfig :=
    { temperature := temperature
      repetition_penalty := quality_settings.repetition_penalty
      repetition_range := 64
      top_k := 40
      top_p := mkRat 9 10
      min_p := mkRat 1 20
      mirostat := use_mirostat
      mirostat_tau := mkRat 5 1
      mirostat_eta := mkRat 1 10 }
  { text := text
    speaker := eng.default_speaker
    generation_type := quality_settings.generation_type
    max_batch_size := quality_settings.max_batch_size
    dac_decoding_chunk := quality_settings.dac_decoding_chunk
    max_length := quality_settings.max_length
    sampler_config := sampler_config }

/-- `OuteTTSEngine.synthesize` (lines 268-350), returning the boolean result
together with the trace of observable actions.  Control flow mirrors the
source: not-loaded returns immediately; inside the `try`, the memory check
comes first, then text trimming/validation, then the sampler and generation
configs are built (`temperature` is the function argument, lines 312-313;
`speaker` is `self.default_speaker`, line 328), then `generate`, then
`output.save`; `_cleanup_memory` runs after a successful save and in the
`except` branch, but the early validation/memory returns skip it. -/
def OuteTTSEngine.synthesize (eng : OuteTTSEngine) (env : SynthEnv)
    (text : String) (output_path : String)
    (quality : String) (temperature : Rat) (use_mirostat : Bool) :
    Bool × List Event :=
  if eng.is_loaded = false then
    (false, [])
  else if check_memory_usage env.gpu = false then
    (false, [Event.memCheck])
  else
    let text := pyStrip text
    if text = "" then
      (false, [Event.memCheck])
    else
      let cfg := buildGenerationConfig eng text quality temperature
        use_mirostat
      if env.generate_ok = false then
        (false, [Event.memCheck, Event.generate cfg, Event.cleanup])
      else if env.save_ok = false then
        (false, [Event.memCheck, Event.generate cfg, Event.save output_path,
                 Event.cleanup])
      else
        (true, [Event.memCheck, Event.generate cfg, Event.save output_path,
                Event.cleanup])

/-- The success path of `OuteTTSEngine._load_model` (lines 166-196): the only
place in the engine that acquires `self.mu` (`with self.mu:` on line 169),
initializing the interface and the default speaker under the lock. -/
def loadModelTrace : List Event :=
  [Event.lockAcquire, Event.loadInterface, Event.loadSpeaker,
   Event.lockRelease]

/-- The `single` command handler inlined in `main` (lines 568-581):
`synthesize` is called with the job's text, output path, quality and
temperature and `use_mirostat=True` (the job's `speaker` field is not
passed), and the response is
`SynthesisResult(job_id=job.id, success=success, audio_path=job.output_path)`
with every other field left at its dataclass default. -/
def handleSingleCommand (eng : OuteTTSEngine) (env : SynthEnv)
    (job : SynthesisJob) : SynthesisResult × List Event :=
  let r := eng.synthesize env job.text job.output_path job.quality
    job.temperature true
  ({ job_id := job.id, success := r.1, audio_path := job.output_path }, r.2)

/-- JSON-able values appearing in the info dictionaries. -/
inductive InfoVal where
  | bool (b : Bool)
  | num (q : Rat)
  | nat (n : Nat)
  | str (s : String)
  deriving DecidableEq

def GB : Rat := mkRat (1024 * 1024 * 1024) 1

/-- The `memory_info` dictionary built by `OuteTTSEngine.get_model_info`
(lines 462-479); this is the `"memory_usage"` entry of the returned dict and
exactly what the `memory_usage` command prints (line 584-585). -/
def OuteTTSEngine.memory_usage_info (eng : OuteTTSEngine) (g : GpuStatus) :
    List (String × InfoVal) :=
  let base := [("model_loaded", InfoVal.bool eng.is_loaded),
               ("gpu_available", InfoVal.bool g.cuda_available)]
  if g.cuda_available then
    if g.query_fails then
      base ++ [("gpu_error", InfoVal.str g.gpu_error_msg)]
    else
      base ++
        [("gpu_allocated_gb", InfoVal.num ((g.allocated : Rat) / GB)),
         ("gpu_reserved_gb", InfoVal.num ((g.reserved : Rat) / GB)),
         ("gpu_total_gb", InfoVal.num ((g.total : Rat) / GB)),
         ("gpu_device_count", InfoVal.nat g.device_count)]
  else base

/-!
The command dispatcher loop of `main` in persistent mode (lines 560-634).
A raw stdin line is modelled after JSON decoding and command extraction:
`malformed` is a line on which `json.loads` raises `JSONDecodeError` (or any
value whose `.get` attribute access then fails, caught by the generic
`except`); `singleInvalid` is a `single` command whose `job` payload does not
build a `SynthesisJob` (`KeyError`/`TypeError`, also caught by the generic
`except`).  The `file_path` of `play_audio`/`audio_info` is optional, and the
code treats an empty string as missing (`if file_path:`).  The
`shutdown_event` check at the top of the loop is omitted: the only setter of
that flag is `signal_handler`, which calls `sys.exit` itself, so the loop
never observes the flag set. -/

/-- One decoded input line of the persistent-mode protocol. -/
inductive ParsedLine where
  | malformed
  | single (job : SynthesisJob)
  | singleInvalid
  | memoryUsage
  | playAudio (file_path : Option String)
  | audioInfo (file_path : Option String)
  | cleanup
  | unknown (tag : Option String)
  deriving DecidableEq

/-- One emitted response line. -/
inductive Response where
  | result (r : SynthesisResult)
  | memory (info : List (String × InfoVal))
  | adapterResult (info : List (String × InfoVal))
  | missingFilePath (cmd : String)
  | cleaned
  | errorUnknownCommand (tag : Option String)
  | errorInvalidJson
  | errorCommandFailed
  deriving DecidableEq

/-- The responses the loop emits as `json.dumps` objects with an `error` key
(malformed JSON, unknown command tag, failed command, missing `file_path`). -/
def Response.isProtocolError : Response → Bool
  | Response.missingFilePath _ => true
  | Response.errorUnknownCommand _ => true
  | Response.errorInvalidJson => true
  | Response.errorCommandFailed => true
  | _ => false

/-- The opaque audio utility adapter (`play_audio`/`get_audio_info` results):
its outputs do not matter to the dispatcher properties proved here. -/
structure AudioEnv where
  play : String → List (String × InfoVal)
  describe : String → List (String × InfoVal)

/-- One iteration body of the dispatcher loop (lines 564-634): the response
printed for the line, and whether the loop continues (`cleanup` breaks,
everything else — including every error — continues). -/
def dispatchLine (eng : OuteTTSEngine) (env : SynthEnv) (aenv : AudioEnv) :
    ParsedLine → Response × Bool
  | ParsedLine.malformed => (Response.errorInvalidJson, true)
  | ParsedLine.single job =>
      (Response.result (handleSingleCommand eng env job).1, true)
  | ParsedLine.singleInvalid => (Response.errorCommandFailed, true)
  | ParsedLine.memoryUsage =>
      (Response.memory (eng.memory_usage_info env.gpu), true)
  | ParsedLine.playAudio fp =>
      match fp with
      | some s =>
          if s = "" then (Response.missingFilePath "play_audio", true)
          else (Response.adapterResult (aenv.play s), true)
      | none => (Response.missingFilePath "play_audio", true)
  | ParsedLine.audioInfo fp =>
      match fp with
      | some s =>
          if s = "" then (Response.missingFilePath "audio_info", true)
          else (Response.adapterResult (aenv.describe s), true)
      | none => (Response.missingFilePath "audio_info", true)
  | ParsedLine.cleanup => (Response.cleaned, false)
  | ParsedLine.unknown tag => (Response.errorUnknownCommand tag, true)

/-- The dispatcher loop: process lines in order, emitting one response each,
stopping after a response whose continue-flag is false. -/
def runLoop (d : ParsedLine → Response × Bool) :
    List ParsedLine → List Response
  | [] => []
  | l :: ls => (d l).1 :: (if (d l).2 then runLoop d ls else [])

/-- The lines the loop actually consumes: everything up to and including the
first line whose continue-flag is false. -/
def servedLines (d : ParsedLine → Response × Bool) :
    List ParsedLine → List ParsedLine
  | [] => []
  | l :: ls => l :: (if (d l).2 then servedLines d ls else [])

/-!
The shutdown path (`signal_handler`, lines 493-499).  Attribute lookup on the
engine instance is modelled by the class's method names and the instance
attributes assigned in `__init__`: `engine_instance.cleanup()` succeeds only
if `cleanup` is among them, otherwise Python raises `AttributeError` and the
following `sys.exit(0)` is never reached. -/

/-- Methods defined by `class OuteTTSEngine` plus the instance attributes
assigned in `__init__` (lines 130-164). -/
def outeTTSEngineAttrs : List String :=
  ["__init__", "_load_model", "_get_quality_settings", "_check_memory_usage",
   "_cleanup_memory", "synthesize", "play_audio", "get_audio_info",
   "get_model_info",
   "model_path", "interface", "default_speaker", "is_loaded", "mu",
   "gpu_memory_allocated", "max_gpu_memory"]

def engineHasAttr (attr : String) : Bool :=
  outeTTSEngineAttrs.contains attr

/-- Process-global state touched by `signal_handler`. -/
structure ProcState where
  engine_instance : Option OuteTTSEngine
  shutdown : Bool
  deriving DecidableEq

/-- How a `signal_handler` invocation ends: `exited status cleanups` when
`sys.exit(status)` is reached after `cleanups` memory cleanups, or
`raised exc cleanups` when an exception escapes the handler first. -/
inductive HandlerOutcome where
  | exited (status : Nat) (cleanups : Nat)
  | raised (exc : String) (cleanups : Nat)
  deriving DecidableEq

/-- `signal_handler` (lines 493-499): sets `shutdown_event`, then, if
`engine_instance` is set, evaluates `engine_instance.cleanup()` — an
attribute lookup that fails because `OuteTTSEngine` defines no `cleanup` —
and finally would call `sys.exit(0)`. -/
def signal_handler (st : ProcState) : ProcState × HandlerOutcome :=
  let st2 : ProcState := { st with shutdown := true }
  match st2.engine_instance with
  | none => (st2, HandlerOutcome.exited 0 0)
  | some _ =>
      if engineHasAttr "cleanup" then
        (st2, HandlerOutcome.exited 0 1)
      else
        (st2, HandlerOutcome.raised "AttributeError" 0)

/-!
Trace observers. -/

/-- Whether a trace contains a backend `generate` call. -/
def hasGenerate : List Event → Bool
  | [] => false
  | Event.generate _ :: _ => true
  | _ :: es => hasGenerate es

/-- Whether a trace contains a `_cleanup_memory` invocation. -/
def hasCleanup : List Event → Bool
  | [] => false
  | Event.cleanup :: _ => true
  | _ :: es => hasCleanup es

/-- The sampler temperatures of all `generate` calls in a trace. -/
def generatedTemps : List Event → List Rat
  | [] => []
  | Event.generate cfg :: es =>
      cfg.sampler_config.temperature :: generatedTemps es
  | _ :: es => generatedTemps es

/-- The speaker references of all `generate` calls in a trace. -/
def generatedSpeakers : List Event → List (Option String)
  | [] => []
  | Event.generate cfg :: es => cfg.speaker :: generatedSpeakers es
  | _ :: es => generatedSpeakers es

/-!
Concrete fixtures for counterexamples and witnesses: an engine in the Ready
state, a CUDA device with 8 GB free, and an environment where the backend
and the filesystem succeed. -/

def engLoaded : OuteTTSEngine :=
  { model_path := "/models/model.gguf"
    is_loaded := true
    default_speaker := some "en-female-1-neutral" }

def gpuOk : GpuStatus :=
  { cuda_available := true
    query_fails := false
    allocated := 0
    reserved := 0
    total := 8 * 1024 * 1024 * 1024
    device_count := 1
    gpu_error_msg := "" }

def envOk : SynthEnv :=
  { gpu := gpuOk, generate_ok := true, save_ok := true }

def job1 : SynthesisJob :=
  { id := "1", text := "Hello", output_path := "/tmp/out.wav",
    quality := "fast" }

/-!
Helper lemmas. -/

/-- Case analysis of a `synthesize` run: the trace is empty (engine not
loaded), a bare memory check (memory rejection or empty-text validation
failure), or a full attempt whose `generate` call carries the engine's
default speaker and the caller's `temperature` argument, followed by
`cleanup`. -/
theorem synthesize_trace_cases (eng : OuteTTSEngine) (env : SynthEnv)
    (text output_path quality : String) (temperature : Rat)
    (use_mirostat : Bool) :
    (eng.synthesize env text output_path quality temperature use_mirostat).2
        = [] ∨
    (eng.synthesize env text output_path quality temperature use_mirostat).2
        = [Event.memCheck] ∨
    (eng.synthesize env text output_path quality temperature use_mirostat).2
        = [Event.memCheck,
           Event.generate (buildGenerationConfig eng (pyStrip text) quality
             temperature use_mirostat),
           Event.cleanup] ∨
    (eng.synthesize env text output_path quality temperature use_mirostat).2
        = [Event.memCheck,
           Event.generate (buildGenerationConfig eng (pyStrip text) quality
             temperature use_mirostat),
           Event.save output_path, Event.cleanup] := by
  simp only [OuteTTSEngine.synthesize]
  split
  · exact Or.inl rfl
  · split
    · exact Or.inr (Or.inl rfl)
    · split
      · exact Or.inr (Or.inl rfl)
      · split
        · exact Or.inr (Or.inr (Or.inl rfl))
        · split
          · exact Or.inr (Or.inr (Or.inr rfl))
          · exact Or.inr (Or.inr (Or.inr rfl))

/-- The generate config always carries the engine's default speaker. -/
theorem buildGenerationConfig_speaker (eng : OuteTTSEngine)
    (text quality : String) (temperature : Rat) (use_mirostat : Bool) :
    (buildGenerationConfig eng text quality temperature
      use_mirostat).speaker = eng.default_speaker := rfl

/-- The generate config's sampler temperature is the caller's argument. -/
theorem buildGenerationConfig_temperature (eng : OuteTTSEngine)
    (text quality : String) (temperature : Rat) (use_mirostat : Bool) :
    (buildGenerationConfig eng text quality temperature
      use_mirostat).sampler_config.temperature = temperature := rfl

/-- The dispatcher loop emits exactly the responses of the lines it serves,
in order. -/
theorem runLoop_eq_map (d : ParsedLine → Response × Bool)
    (lines : List ParsedLine) :
    runLoop d lines = (servedLines d lines).map (fun l => (d l).1) := by
  induction lines with
  | nil => rfl
  | cons l ls ih =>
      by_cases h : (d l).2 <;> simp [runLoop, servedLines, h, ih]

/-!
Claims. -/

/-- Claim C3 (confirmed): in the dispatcher loop, every received command
line — well-formed or malformed — yields exactly one response line, in the
order received (the emitted responses are precisely the per-line responses
of the served prefix, mapped in order), and no error response (malformed
JSON, unknown command tag, failed command, missing file path) ever clears
the continue-flag: only `cleanup` terminates the loop. -/
theorem C3_one_response_per_line_in_order_errors_continue
    (eng : OuteTTSEngine) (env : SynthEnv) (aenv : AudioEnv)
    (lines : List ParsedLine) :
    runLoop (dispatchLine eng env aenv) lines
      = (servedLines (dispatchLine eng env aenv) lines).map
          (fun l => (dispatchLine eng env aenv l).1)
    ∧ ∀ l : ParsedLine,
        ((dispatchLine eng env aenv l).1.isProtocolError
          && !(dispatchLine eng env aenv l).2) = false := by
  refine ⟨runLoop_eq_map _ _, ?_⟩
  intro l
  cases l with
  | playAudio fp =>
      cases fp with
      | none => simp [dispatchLine, Response.isProtocolError]
      | some s =>
          by_cases h : s = "" <;>
            simp [dispatchLine, Response.isProtocolError, h]
  | audioInfo fp =>
      cases fp with
      | none => simp [dispatchLine, Response.isProtocolError]
      | some s =>
          by_cases h : s = "" <;>
            simp [dispatchLine, Response.isProtocolError, h]
  | _ => simp [dispatchLine, Response.isProtocolError]

/-- Claim C5 counterexample: a job with quality `fast` and no explicit
temperature (the dataclass default `0.4` is what the dispatcher passes)
is generated with temperature `0.4`, not the `fast` preset's `0.6` — the
resolved preset's temperature is not what generation uses. -/
theorem C5_counterexample_fast_preset_temperature_ignored :
    (get_quality_settings "fast").temperature = mkRat 6 10
    ∧ generatedTemps
        (engLoaded.synthesize envOk "Hello" "/tmp/out.wav" "fast"
          (mkRat 4 10) true).2 = [mkRat 4 10]
    ∧ mkRat 4 10 ≠ mkRat 6 10 := by decide

/-- Claim C5 amended: when `synthesize` builds generation parameters, the
preset supplies every sampler field except the temperature: the temperature
passed to the backend is always the `temperature` argument (the job's
per-job value, `0.4` by dataclass default), and the resolved preset's
temperature entry is never used. -/
theorem C5_generate_always_uses_job_temperature (eng : OuteTTSEngine)
    (env : SynthEnv) (text output_path quality : String) (temperature : Rat)
    (use_mirostat : Bool) :
    (generatedTemps
        (eng.synthesize env text output_path quality temperature
          use_mirostat).2).all
      (fun x => decide (x = temperature)) = true := by
  rcases synthesize_trace_cases eng env text output_path quality temperature
      use_mirostat with h | h | h | h <;>
    simp [h, generatedTemps, buildGenerationConfig_temperature]

/-- Claim C8 (confirmed): `_get_quality_settings` is a total function, and
for every quality name outside the closed set it returns exactly the same
(non-empty) bundle as `high`. -/
theorem C8_unknown_quality_resolves_to_high (q : String)
    (h1 : q ≠ "fast") (h2 : q ≠ "balanced") (h3 : q ≠ "high") :
    get_quality_settings q = get_quality_settings "high" := by
  unfold get_quality_settings
  rw [if_neg h1, if_neg h2]
  decide

/-- Witness for C8 at the unknown quality name `ultra`. -/
theorem C8_unknown_quality_resolves_to_high_witness :
    get_quality_settings "ultra" = get_quality_settings "high" :=
  C8_unknown_quality_resolves_to_high "ultra" (by decide) (by decide)
    (by decide)

/-- Claim C9 (confirmed): a job whose text is empty after stripping
surrounding whitespace makes `synthesize` return `False` and never reaches
the backend `generate` call (the trace contains no generate event). -/
theorem C9_empty_text_fails_without_generate (eng : OuteTTSEngine)
    (env : SynthEnv) (text output_path quality : String) (temperature : Rat)
    (use_mirostat : Bool) (h : pyStrip text = "") :
    (eng.synthesize env text output_path quality temperature
      use_mirostat).1 = false
    ∧ hasGenerate
        (eng.synthesize env text output_path quality temperature
          use_mirostat).2 = false := by
  unfold OuteTTSEngine.synthesize
  split
  · exact ⟨rfl, rfl⟩
  · split
    · exact ⟨rfl, rfl⟩
    · simp [h, hasGenerate]

/-- Witness for C9 at a whitespace-only text. -/
theorem C9_empty_text_fails_without_generate_witness :
    pyStrip "   " = ""
    ∧ ((engLoaded.synthesize envOk "   " "/tmp/out2.wav" "high"
          (mkRat 4 10) true).1 = false
       ∧ hasGenerate
           (engLoaded.synthesize envOk "   " "/tmp/out2.wav" "high"
             (mkRat 4 10) true).2 = false) :=
  ⟨by decide,
   C9_empty_text_fails_without_generate engLoaded envOk "   " "/tmp/out2.wav"
     "high" (mkRat 4 10) true (by decide)⟩

/-- Claim C10 (confirmed): the `single` command handler ignores the job's
`speaker` field — two jobs identical up to `speaker` produce the same
response and the same backend trace — and every backend generate call
carries the engine's default speaker loaded at startup. -/
theorem C10_speaker_field_has_no_effect (eng : OuteTTSEngine)
    (env : SynthEnv) (job : SynthesisJob) (s : String) :
    handleSingleCommand eng env { job with speaker := s }
      = handleSingleCommand eng env job
    ∧ (generatedSpeakers (handleSingleCommand eng env job).2).all
        (fun x => decide (x = eng.default_speaker)) = true := by
  refine ⟨rfl, ?_⟩
  show (generatedSpeakers
      (eng.synthesize env job.text job.output_path job.quality
        job.temperature true).2).all
    (fun x => decide (x = eng.default_speaker)) = true
  rcases synthesize_trace_cases eng env job.text job.output_path job.quality
      job.temperature true with h | h | h | h <;>
    simp [h, generatedSpeakers, buildGenerationConfig_speaker]

/-- Claim C1 counterexample: a job whose text is whitespace-only (a
validation failure, one of the outcomes the claim covers) is processed with
the model loaded and memory sufficient, yet `synthesize` returns without
ever invoking `_cleanup_memory`: the early `return False` on empty text
skips the cleanup that the claim says happens after every job. -/
theorem C1_counterexample_validation_failure_skips_cleanup :
    (engLoaded.synthesize envOk "   " "/tmp/out.wav" "high" (mkRat 4 10)
      true).1 = false
    ∧ check_memory_usage envOk.gpu = true
    ∧ hasCleanup
        (engLoaded.synthesize envOk "   " "/tmp/out.wav" "high" (mkRat 4 10)
          true).2 = false := by decide

/-- Claim C1 amended: for every job processed with the model loaded, the
memory check is the first action performed, and `_cleanup_memory` runs
after the job exactly when the backend `generate` step was reached (success,
backend failure, or write failure); after a validation failure or a memory
rejection `synthesize` returns early without cleanup. -/
theorem C1_memcheck_first_cleanup_iff_generate (eng : OuteTTSEngine)
    (env : SynthEnv) (text output_path quality : String) (temperature : Rat)
    (use_mirostat : Bool) (h : eng.is_loaded = true) :
    (eng.synthesize env text output_path quality temperature
        use_mirostat).2.head? = some Event.memCheck
    ∧ hasCleanup
        (eng.synthesize env text output_path quality temperature
          use_mirostat).2
      = hasGenerate
          (eng.synthesize env text output_path quality temperature
            use_mirostat).2 := by
  unfold OuteTTSEngine.synthesize
  rw [h]
  simp only [Bool.true_eq_false, if_false]
  split
  · exact ⟨rfl, rfl⟩
  · split
    · exact ⟨rfl, rfl⟩
    · split
      · exact ⟨rfl, rfl⟩
      · split
        · exact ⟨rfl, rfl⟩
        · exact ⟨rfl, rfl⟩

/-- Witness for C1 (amended) on a loaded engine with a successful job. -/
theorem C1_memcheck_first_cleanup_iff_generate_witness :
    engLoaded.is_loaded = true
    ∧ ((engLoaded.synthesize envOk "Hello" "/tmp/out.wav" "high"
          (mkRat 4 10) true).2.head? = some Event.memCheck
       ∧ hasCleanup
           (engLoaded.synthesize envOk "Hello" "/tmp/out.wav" "high"
             (mkRat 4 10) true).2
         = hasGenerate
             (engLoaded.synthesize envOk "Hello" "/tmp/out.wav" "high"
               (mkRat 4 10) true).2) :=
  ⟨rfl,
   C1_memcheck_first_cleanup_iff_generate engLoaded envOk "Hello"
     "/tmp/out.wav" "high" (mkRat 4 10) true rfl⟩

/-- Claim C2 counterexample: a complete, successful `synthesize` run on a
loaded engine performs no operation at all on the engine's lock `self.mu` —
its event trace contains no acquire, so the sequence is not executed under
the engine's mutual-exclusion guard as the claim states. -/
theorem C2_counterexample_synthesize_never_takes_lock :
    (engLoaded.synthesize envOk "Hi" "/tmp/a.wav" "high" (mkRat 4 10)
      true).1 = true
    ∧ Event.lockAcquire ∉
        (engLoaded.synthesize envOk "Hi" "/tmp/a.wav" "high" (mkRat 4 10)
          true).2 := by decide

/-- Claim C2 amended: `synthesize` never acquires or releases the engine's
lock `self.mu` (for any engine state, environment and arguments its trace
contains no lock event); the only place the engine takes that lock is
`_load_model`.  The engine itself therefore provides no mutual exclusion
between concurrent `synthesize` callers — jobs are serialized only when
driven by the single-threaded command dispatcher loop. -/
theorem C2_synthesize_unguarded_lock_only_in_load (eng : OuteTTSEngine)
    (env : SynthEnv) (text output_path quality : String) (temperature : Rat)
    (use_mirostat : Bool) :
    Event.lockAcquire ∉
      (eng.synthesize env text output_path quality temperature
        use_mirostat).2
    ∧ Event.lockRelease ∉
        (eng.synthesize env text output_path quality temperature
          use_mirostat).2
    ∧ Event.lockAcquire ∈ loadModelTrace := by
  refine ⟨?_, ?_, by decide⟩ <;>
    rcases synthesize_trace_cases eng env text output_path quality
        temperature use_mirostat with h | h | h | h <;>
      simp [h]

/-- Claim C4 counterexample: a fully successful `single` command (model
loaded, memory sufficient, non-empty text, generate and save succeed)
emits a response with `audio_size = 0` and `duration = 0`, because the
dispatcher builds `SynthesisResult` from only `job_id`, `success` and
`audio_path` — contradicting the claimed `audio_size > 0` and elapsed-time
duration. -/
theorem C4_counterexample_success_response_zero_size :
    (handleSingleCommand engLoaded envOk job1).1.success = true
    ∧ (handleSingleCommand engLoaded envOk job1).1.audio_size = 0
    ∧ (handleSingleCommand engLoaded envOk job1).1.duration = 0 := by decide

/-- Claim C4 amended: for a single command processed when the model is
loaded whose non-empty text synthesizes and persists successfully, the
emitted response carries `job_id` equal to the job's id, `success = true`
and `audio_path` equal to the job's `output_path`, but `audio_size` and
`duration` are always their dataclass defaults `0` — neither the output
size nor the elapsed wall time is computed. -/
theorem C4_success_response_fields (eng : OuteTTSEngine) (env : SynthEnv)
    (job : SynthesisJob) (h1 : eng.is_loaded = true)
    (h2 : check_memory_usage env.gpu = true)
    (h3 : pyStrip job.text ≠ "") (h4 : env.generate_ok = true)
    (h5 : env.save_ok = true) :
    (handleSingleCommand eng env job).1
      = { job_id := job.id, success := true, error := none, duration := 0,
          audio_path := job.output_path, audio_size := 0 } := by
  unfold handleSingleCommand OuteTTSEngine.synthesize
  simp [h1, h2, h3, h4, h5]

/-- Witness for C4 (amended) at the concrete job `job1`. -/
theorem C4_success_response_fields_witness :
    (handleSingleCommand engLoaded envOk job1).1
      = { job_id := "1", success := true, error := none, duration := 0,
          audio_path := "/tmp/out.wav", audio_size := 0 } :=
  C4_success_response_fields engLoaded envOk job1 rfl (by decide)
    (by decide) rfl rfl

/-- Claim C6 (code bug): on a termination signal in persistent mode the
handler does set the shared stop flag, but it then evaluates
`engine_instance.cleanup()` — and `OuteTTSEngine` defines no attribute
named `cleanup` (the memory release method is `_cleanup_memory`), so the
lookup raises `AttributeError` before `sys.exit(0)` is reached: no memory
cleanup runs and the orderly exit-status-0 path is never taken. -/
theorem C6_signal_handler_calls_missing_cleanup :
    (signal_handler
        { engine_instance := some engLoaded, shutdown := false }).1.shutdown
      = true
    ∧ (signal_handler
        { engine_instance := some engLoaded, shutdown := false }).2
      = HandlerOutcome.raised "AttributeError" 0
    ∧ engineHasAttr "cleanup" = false
    ∧ engineHasAttr "_cleanup_memory" = true := by decide

/-- Claim C7 counterexample: the object returned by the `memory_usage`
command on a live GPU has keys `model_loaded`, `gpu_available`,
`gpu_allocated_gb`, `gpu_reserved_gb`, `gpu_total_gb`, `gpu_device_count` —
there is no `available` attribute at all, so the claimed
`available <= total` property is not even expressible on the response. -/
theorem C7_counterexample_no_available_field :
    "available" ∉ (engLoaded.memory_usage_info gpuOk).map Prod.fst
    ∧ (engLoaded.memory_usage_info gpuOk).map Prod.fst
      = ["model_loaded", "gpu_available", "gpu_allocated_gb",
         "gpu_reserved_gb", "gpu_total_gb", "gpu_device_count"] := by decide

/-- Claim C7 amended: every `memory_usage` command returns the status object
with `model_loaded` and `gpu_available`, extended — when CUDA is available —
by `gpu_allocated_gb`, `gpu_reserved_gb`, `gpu_total_gb` and
`gpu_device_count` (or `gpu_error` when the query fails); it never contains
an `available` attribute. -/
theorem C7_memory_usage_keys (eng : OuteTTSEngine) (g : GpuStatus) :
    "available" ∉ (eng.memory_usage_info g).map Prod.fst
    ∧ (eng.memory_usage_info g).map Prod.fst
      = ["model_loaded", "gpu_available"] ++
        (if g.cuda_available then
           if g.query_fails then ["gpu_error"]
           else ["gpu_allocated_gb", "gpu_reserved_gb", "gpu_total_gb",
                 "gpu_device_count"]
         else []) := by
  unfold OuteTTSEngine.memory_usage_info
  split
  · split
    · exact ⟨by simp, rfl⟩
    · exact ⟨by simp, rfl⟩
  · exact ⟨by simp, rfl⟩

end TTS
